import Mathlib

/-!
Verification of the Vision DT kit-app-template bootstrap utilities.

Shallow embedding of the Python sources:
  bootstrap/utils/lighting.py      (kelvin_to_rgb, calculate_multispectrum_color)
  bootstrap/utils/color_sync.py    (ColorSync._sync_light_color)
  bootstrap/loader.py              (discover_capabilities, execute_capability)
  bootstrap/utils/zemax_parser.py  (telecentric detection)
  bootstrap/utils/luminous.py      (nits_to_omniverse_intensity)
  bootstrap/utils/lens_sync.py     (LensSync._apply_lens_profile, projection part)
  bootstrap/utils/lens_library.py  (LensLibrary.add_lens)

Python floats are modelled as real numbers (or as rationals where only
field operations and comparisons occur); `None`-able arguments are
modelled as `Option`.
-/

/-- Embedding of `clamp` from `bootstrap/utils/lighting.py`:
`max(min_val, min(x, max_val))`. -/
def clamp (x minVal maxVal : ℝ) : ℝ := max minVal (min x maxVal)

/-- Linear RGB triple, standing for the `Gf.Vec3f` values returned by the
lighting functions (component 0 = r, 1 = g, 2 = b). -/
structure RGB where
  r : ℝ
  g : ℝ
  b : ℝ

/-- Red channel of `kelvin_to_rgb` on the 0-255 scale, as a function of
`temp = kelvin / 100` (the body of the `# Red` block of the source). -/
noncomputable def redChannel255 (temp : ℝ) : ℝ :=
  if temp ≤ 66 then 255
  else clamp (329.698727446 * (temp - 60) ^ (-0.1332047592 : ℝ)) 0 255

/-- Green channel of `kelvin_to_rgb` on the 0-255 scale, as a function of
`temp = kelvin / 100` (the body of the `# Green` block of the source). -/
noncomputable def greenChannel255 (temp : ℝ) : ℝ :=
  if temp ≤ 66 then
    clamp (99.4708025861 * Real.log (max temp 1) - 161.1195681661) 0 255
  else
    clamp (288.1221695283 * (temp - 60) ^ (-0.0755148492 : ℝ)) 0 255

/-- Blue channel of `kelvin_to_rgb` on the 0-255 scale, as a function of
`temp = kelvin / 100` (the body of the `# Blue` block of the source). -/
noncomputable def blueChannel255 (temp : ℝ) : ℝ :=
  if 66 ≤ temp then 255
  else if temp ≤ 19 then 0
  else clamp (138.5177312231 * Real.log (max (temp - 10) 1) - 305.0447927307) 0 255

/-- Body of `kelvin_to_rgb` after the `None`/non-positive substitution:
the input is clamped to [1000, 40000], each channel is computed on the
0-255 scale, divided by 255 and raised to the power 2.2
(`math.pow(x_norm, 2.2)`). -/
noncomputable def kelvinToRgbBody (kelvin0 : ℝ) : RGB :=
  ⟨(redChannel255 (clamp kelvin0 1000 40000 / 100) / 255) ^ (2.2 : ℝ),
   (greenChannel255 (clamp kelvin0 1000 40000 / 100) / 255) ^ (2.2 : ℝ),
   (blueChannel255 (clamp kelvin0 1000 40000 / 100) / 255) ^ (2.2 : ℝ)⟩

/-- Embedding of `kelvin_to_rgb` from `bootstrap/utils/lighting.py`.
`none` stands for a Python `None` argument; a `none`, zero or negative
input is replaced by 6500.0, then the body computes the clamped,
gamma-2.2 linear color. -/
noncomputable def kelvin_to_rgb : Option ℝ → RGB
  | none => kelvinToRgbBody 6500
  | some k => if k ≤ 0 then kelvinToRgbBody 6500 else kelvinToRgbBody k

/-- Embedding of `calculate_multispectrum_color` from
`bootstrap/utils/lighting.py`: per-channel Kelvin conversion, taking the
r component from the red-temperature result, g from green, b from blue,
each multiplied by the same component of the overall-temperature result;
the commented-out max-channel renormalization is absent. -/
noncomputable def calculate_multispectrum_color
    (overall_k r_k g_k b_k : Option ℝ) : RGB :=
  let c_r := kelvin_to_rgb r_k
  let c_g := kelvin_to_rgb g_k
  let c_b := kelvin_to_rgb b_k
  let c_overall := kelvin_to_rgb overall_k
  ⟨c_r.r * c_overall.r, c_g.g * c_overall.g, c_b.b * c_overall.b⟩

lemma clamp_le_right (x lo hi : ℝ) (h : lo ≤ hi) : clamp x lo hi ≤ hi :=
  max_le h (min_le_right x hi)

lemma le_clamp_left (x lo hi : ℝ) : lo ≤ clamp x lo hi :=
  le_max_left lo (min x hi)

lemma clamp_of_mem (x lo hi : ℝ) (h1 : lo ≤ x) (h2 : x ≤ hi) :
    clamp x lo hi = x := by
  unfold clamp
  rw [min_eq_left h2, max_eq_right h1]

lemma clamp_idem (x lo hi : ℝ) (h : lo ≤ hi) :
    clamp (clamp x lo hi) lo hi = clamp x lo hi :=
  clamp_of_mem _ _ _ (le_clamp_left x lo hi) (clamp_le_right x lo hi h)

lemma redChannel255_mem (t : ℝ) :
    0 ≤ redChannel255 t ∧ redChannel255 t ≤ 255 := by
  unfold redChannel255
  split
  · norm_num
  · exact ⟨le_clamp_left _ _ _, clamp_le_right _ _ _ (by norm_num)⟩

lemma greenChannel255_mem (t : ℝ) :
    0 ≤ greenChannel255 t ∧ greenChannel255 t ≤ 255 := by
  unfold greenChannel255
  split
  · exact ⟨le_clamp_left _ _ _, clamp_le_right _ _ _ (by norm_num)⟩
  · exact ⟨le_clamp_left _ _ _, clamp_le_right _ _ _ (by norm_num)⟩

lemma blueChannel255_mem (t : ℝ) :
    0 ≤ blueChannel255 t ∧ blueChannel255 t ≤ 255 := by
  unfold blueChannel255
  split
  · norm_num
  · split
    · norm_num
    · exact ⟨le_clamp_left _ _ _, clamp_le_right _ _ _ (by norm_num)⟩

lemma norm_pow_mem {x : ℝ} (h0 : 0 ≤ x) (h255 : x ≤ 255) :
    0 ≤ (x / 255) ^ (2.2 : ℝ) ∧ (x / 255) ^ (2.2 : ℝ) ≤ 1 := by
  have hx0 : (0:ℝ) ≤ x / 255 := div_nonneg h0 (by norm_num)
  have hx1 : x / 255 ≤ 1 := by
    rw [div_le_one (by norm_num)]
    exact h255
  exact ⟨Real.rpow_nonneg hx0 _, Real.rpow_le_one hx0 hx1 (by norm_num)⟩

lemma kelvinToRgbBody_mem (k0 : ℝ) :
    (0 ≤ (kelvinToRgbBody k0).r ∧ (kelvinToRgbBody k0).r ≤ 1) ∧
    (0 ≤ (kelvinToRgbBody k0).g ∧ (kelvinToRgbBody k0).g ≤ 1) ∧
    (0 ≤ (kelvinToRgbBody k0).b ∧ (kelvinToRgbBody k0).b ≤ 1) := by
  unfold kelvinToRgbBody
  exact ⟨norm_pow_mem (redChannel255_mem _).1 (redChannel255_mem _).2,
    norm_pow_mem (greenChannel255_mem _).1 (greenChannel255_mem _).2,
    norm_pow_mem (blueChannel255_mem _).1 (blueChannel255_mem _).2⟩

lemma kelvin_to_rgb_eq_body (k : Option ℝ) :
    ∃ k0 : ℝ, kelvin_to_rgb k = kelvinToRgbBody k0 := by
  match k with
  | none => exact ⟨6500, rfl⟩
  | some x =>
    by_cases hx : x ≤ 0
    · exact ⟨6500, by simp [kelvin_to_rgb, if_pos hx]⟩
    · exact ⟨x, by simp [kelvin_to_rgb, if_neg hx]⟩

lemma kelvin_to_rgb_mem (k : Option ℝ) :
    (0 ≤ (kelvin_to_rgb k).r ∧ (kelvin_to_rgb k).r ≤ 1) ∧
    (0 ≤ (kelvin_to_rgb k).g ∧ (kelvin_to_rgb k).g ≤ 1) ∧
    (0 ≤ (kelvin_to_rgb k).b ∧ (kelvin_to_rgb k).b ≤ 1) := by
  obtain ⟨k0, hk0⟩ := kelvin_to_rgb_eq_body k
  rw [hk0]
  exact kelvinToRgbBody_mem k0

/-- C2: each output channel of `calculate_multispectrum_color` equals the
corresponding channel of the per-channel Kelvin conversion multiplied by
that same channel of the overall-temperature conversion, with no
renormalization; with all four inputs equal, the result is the
component-wise square of `kelvin_to_rgb`. -/
theorem calculate_multispectrum_color_structure :
    (∀ overall_k r_k g_k b_k : Option ℝ,
      (calculate_multispectrum_color overall_k r_k g_k b_k).r =
        (kelvin_to_rgb r_k).r * (kelvin_to_rgb overall_k).r ∧
      (calculate_multispectrum_color overall_k r_k g_k b_k).g =
        (kelvin_to_rgb g_k).g * (kelvin_to_rgb overall_k).g ∧
      (calculate_multispectrum_color overall_k r_k g_k b_k).b =
        (kelvin_to_rgb b_k).b * (kelvin_to_rgb overall_k).b) ∧
    (∀ k : Option ℝ,
      calculate_multispectrum_color k k k k =
        ⟨(kelvin_to_rgb k).r ^ 2, (kelvin_to_rgb k).g ^ 2,
         (kelvin_to_rgb k).b ^ 2⟩) := by
  constructor
  · intro overall_k r_k g_k b_k
    exact ⟨rfl, rfl, rfl⟩
  · intro k
    unfold calculate_multispectrum_color
    simp [sq]

/-- C10: every channel of `calculate_multispectrum_color` lies in
[0, 1]: each `kelvin_to_rgb` channel is a clamped 0-255 value divided by
255 and raised to the 2.2 power, hence in [0, 1], and a product of two
such channels stays in [0, 1] even without the (commented-out)
max-channel rescale. -/
theorem calculate_multispectrum_color_channels_in_unit_interval
    (overall_k r_k g_k b_k : Option ℝ) :
    (0 ≤ (calculate_multispectrum_color overall_k r_k g_k b_k).r ∧
      (calculate_multispectrum_color overall_k r_k g_k b_k).r ≤ 1) ∧
    (0 ≤ (calculate_multispectrum_color overall_k r_k g_k b_k).g ∧
      (calculate_multispectrum_color overall_k r_k g_k b_k).g ≤ 1) ∧
    (0 ≤ (calculate_multispectrum_color overall_k r_k g_k b_k).b ∧
      (calculate_multispectrum_color overall_k r_k g_k b_k).b ≤ 1) := by
  obtain ⟨hr1, hg1, hb1⟩ := kelvin_to_rgb_mem r_k
  obtain ⟨hr2, hg2, hb2⟩ := kelvin_to_rgb_mem g_k
  obtain ⟨hr3, hg3, hb3⟩ := kelvin_to_rgb_mem b_k
  obtain ⟨hro, hgo, hbo⟩ := kelvin_to_rgb_mem overall_k
  unfold calculate_multispectrum_color
  refine ⟨⟨mul_nonneg hr1.1 hro.1, ?_⟩,
    ⟨mul_nonneg hg2.1 hgo.1, ?_⟩,
    ⟨mul_nonneg hb3.1 hbo.1, ?_⟩⟩
  · exact mul_le_one₀ hr1.2 hro.1 hro.2
  · exact mul_le_one₀ hg2.2 hgo.1 hgo.2
  · exact mul_le_one₀ hb3.2 hbo.1 hbo.2

/-- C3: `kelvin_to_rgb` substitutes 6500 K for an absent, zero or
negative input; the value only matters through its clamp to
[1000, 40000]; a positive input at or below 6600 K (so `temp ≤ 66`)
gives red channel 255/255 = 1, one at or above 6600 K gives blue
channel 1, and a positive input at or below 1900 K (so `temp ≤ 19`)
gives blue channel 0; in particular `kelvin_to_rgb(None)` and
`kelvin_to_rgb(-5)` both equal `kelvin_to_rgb(6500)`. -/
theorem kelvin_to_rgb_spec :
    kelvin_to_rgb none = kelvin_to_rgb (some 6500) ∧
    kelvin_to_rgb (some (-5)) = kelvin_to_rgb (some 6500) ∧
    kelvin_to_rgb (some 0) = kelvin_to_rgb (some 6500) ∧
    (∀ k : ℝ, 0 < k →
      kelvin_to_rgb (some k) = kelvin_to_rgb (some (clamp k 1000 40000))) ∧
    (∀ k : ℝ, 0 < k → k ≤ 6600 → (kelvin_to_rgb (some k)).r = 1) ∧
    (∀ k : ℝ, 6600 ≤ k → (kelvin_to_rgb (some k)).b = 1) ∧
    (∀ k : ℝ, 0 < k → k ≤ 1900 → (kelvin_to_rgb (some k)).b = 0) := by
  have hneg : ∀ x : ℝ, x ≤ 0 → kelvin_to_rgb (some x) = kelvinToRgbBody 6500 := by
    intro x hx
    simp [kelvin_to_rgb, if_pos hx]
  have hpos : ∀ x : ℝ, 0 < x →
      kelvin_to_rgb (some x) = kelvinToRgbBody x := by
    intro x hx
    simp [kelvin_to_rgb, if_neg (not_le.mpr hx)]
  have h6500 : kelvin_to_rgb (some 6500) = kelvinToRgbBody 6500 :=
    hpos 6500 (by norm_num)
  refine ⟨h6500.symm ▸ rfl, ?_, ?_, ?_, ?_, ?_, ?_⟩
  · rw [hneg (-5) (by norm_num), h6500]
  · rw [hneg 0 le_rfl, h6500]
  · intro k hk
    rw [hpos k hk, hpos _ (lt_of_lt_of_le (by norm_num)
      (le_clamp_left k 1000 40000))]
    unfold kelvinToRgbBody
    rw [clamp_idem _ _ _ (by norm_num)]
  · intro k hk hk66
    rw [hpos k hk]
    have ht : clamp k 1000 40000 / 100 ≤ 66 := by
      have : clamp k 1000 40000 ≤ 6600 :=
        max_le (by norm_num) (le_trans (min_le_left k 40000) hk66)
      linarith
    show (redChannel255 (clamp k 1000 40000 / 100) / 255) ^ (2.2:ℝ) = 1
    rw [redChannel255, if_pos ht]
    norm_num
  · intro k hk66
    rw [hpos k (lt_of_lt_of_le (by norm_num) hk66)]
    have ht : (66:ℝ) ≤ clamp k 1000 40000 / 100 := by
      have : (6600:ℝ) ≤ clamp k 1000 40000 :=
        le_trans (le_min hk66 (by norm_num)) (le_max_right 1000 (min k 40000))
      linarith
    show (blueChannel255 (clamp k 1000 40000 / 100) / 255) ^ (2.2:ℝ) = 1
    rw [blueChannel255, if_pos ht]
    norm_num
  · intro k hk hk19
    rw [hpos k hk]
    have hle : clamp k 1000 40000 ≤ 1900 :=
      max_le (by norm_num) (le_trans (min_le_left k 40000) hk19)
    have ht : clamp k 1000 40000 / 100 ≤ 19 := by linarith
    show (blueChannel255 (clamp k 1000 40000 / 100) / 255) ^ (2.2:ℝ) = 0
    rw [blueChannel255, if_neg (by intro h; linarith), if_pos ht]
    rw [zero_div]
    exact Real.zero_rpow (by norm_num)

/-- Witness for C3: the red channel of `kelvin_to_rgb` at 3000 K is 1 and
the blue channel at 1500 K is 0. -/
theorem kelvin_to_rgb_spec_witness :
    (kelvin_to_rgb (some 3000)).r = 1 ∧ (kelvin_to_rgb (some 1500)).b = 0 :=
  ⟨kelvin_to_rgb_spec.2.2.2.2.1 3000 (by norm_num) (by norm_num),
   kelvin_to_rgb_spec.2.2.2.2.2.2 1500 (by norm_num) (by norm_num)⟩


/-- A USD light prim as seen by `ColorSync._sync_light_color`
(`bootstrap/utils/color_sync.py`): the four `visiondt:` temperature
attributes (`none` = attribute missing or `Get()` returned `None`), the
native `inputs:enableColorTemperature` attribute (`none` = attribute
missing), and the `inputs:color` attribute with its current value and a
flag for whether the attribute exists and is valid. -/
structure Light where
  overallTemperature : Option ℝ
  redTemperature : Option ℝ
  greenTemperature : Option ℝ
  blueTemperature : Option ℝ
  enableColorTemperature : Option Bool
  colorValid : Bool
  color : RGB

/-- Embedding of `ColorSync._sync_light_color`: re-read the four
temperature attributes with default 6500.0, compute the multi-spectrum
color, disable the native color-temperature flag when `force_override`
is set and the flag is not already `False`, then write the computed
color to `inputs:color` when that attribute is valid. -/
noncomputable def sync_light_color (l : Light) (forceOverride : Bool) : Light :=
  let overall_k := l.overallTemperature.getD 6500
  let r_k := l.redTemperature.getD 6500
  let g_k := l.greenTemperature.getD 6500
  let b_k := l.blueTemperature.getD 6500
  let finalColor :=
    calculate_multispectrum_color (some overall_k) (some r_k) (some g_k) (some b_k)
  let l1 :=
    if forceOverride then
      match l.enableColorTemperature with
      | some cur =>
        if cur ≠ false then { l with enableColorTemperature := some false } else l
      | none => l
    else l
  if l1.colorValid then { l1 with color := finalColor } else l1

/-- C1: for a light with the four visiondt temperature attributes set, a
valid color attribute and `enableColorTemperature = True`, one run of
the per-light sync (with its default `force_override=True`) sets
`enableColorTemperature` to `False` and sets `inputs:color` to exactly
`calculate_multispectrum_color(overall, r, g, b)` of the attributes'
current values. -/
theorem sync_light_color_overrides
    (l : Light) (o r g b : ℝ)
    (ho : l.overallTemperature = some o)
    (hr : l.redTemperature = some r)
    (hg : l.greenTemperature = some g)
    (hb : l.blueTemperature = some b)
    (hct : l.enableColorTemperature = some true)
    (hcv : l.colorValid = true) :
    (sync_light_color l true).enableColorTemperature = some false ∧
    (sync_light_color l true).color =
      calculate_multispectrum_color (some o) (some r) (some g) (some b) := by
  unfold sync_light_color
  rw [ho, hr, hg, hb, hct]
  simp [hcv]

/-- Witness for C1: a concrete light with all four temperatures set to
6500, `enableColorTemperature = True` and a valid color attribute. -/
theorem sync_light_color_overrides_witness :
    (sync_light_color
        ⟨some 6500, some 6500, some 6500, some 6500, some true, true,
          ⟨0, 0, 0⟩⟩ true).enableColorTemperature = some false ∧
    (sync_light_color
        ⟨some 6500, some 6500, some 6500, some 6500, some true, true,
          ⟨0, 0, 0⟩⟩ true).color =
      calculate_multispectrum_color (some 6500) (some 6500) (some 6500)
        (some 6500) :=
  sync_light_color_overrides _ 6500 6500 6500 6500 rfl rfl rfl rfl rfl rfl

/-- Lexicographic comparison of character lists by code point, the order
Python's `list.sort(key=lambda x: x.name)` uses on filename strings. -/
def listCharLe : List Char → List Char → Bool
  | [], _ => true
  | _ :: _, [] => false
  | a :: as, b :: bs => if a < b then true else if a = b then listCharLe as bs else false

/-- Lexicographic string comparison on the underlying character lists. -/
def strLeB (a b : String) : Bool := listCharLe a.data b.data

/-- The lexicographic order on strings as a relation, for sorting. -/
def strLeRel (a b : String) : Prop := strLeB a b = true

instance : DecidableRel strLeRel :=
  fun a b => inferInstanceAs (Decidable (strLeB a b = true))

lemma listCharLe_total (a b : List Char) :
    listCharLe a b = true ∨ listCharLe b a = true := by
  induction a generalizing b with
  | nil => left; rfl
  | cons x xs ih =>
    cases b with
    | nil => right; rfl
    | cons y ys =>
      rcases lt_trichotomy x y with h | h | h
      · left; simp [listCharLe, h]
      · subst h
        rcases ih ys with h2 | h2
        · left; simp [listCharLe, h2]
        · right; simp [listCharLe, h2]
      · right; simp [listCharLe, h]

lemma listCharLe_trans (a b c : List Char) (h1 : listCharLe a b = true)
    (h2 : listCharLe b c = true) : listCharLe a c = true := by
  induction a generalizing b c with
  | nil => rfl
  | cons x xs ih =>
    cases b with
    | nil => simp [listCharLe] at h1
    | cons y ys =>
      cases c with
      | nil => simp [listCharLe] at h2
      | cons z zs =>
        by_cases hxy : x < y
        · by_cases hyz : y < z
          · simp [listCharLe, lt_trans hxy hyz]
          · by_cases heq : y = z
            · subst heq; simp [listCharLe, hxy]
            · simp [listCharLe, hyz, heq] at h2
        · by_cases heq : x = y
          · subst heq
            have h1' : listCharLe xs ys = true := by
              simpa [listCharLe, hxy] using h1
            by_cases hxz : x < z
            · simp [listCharLe, hxz]
            · by_cases hxzeq : x = z
              · subst hxzeq
                have h2' : listCharLe ys zs = true := by
                  simpa [listCharLe, hxz] using h2
                simp [listCharLe, ih ys zs h1' h2']
              · simp [listCharLe, hxz, hxzeq] at h2
          · simp [listCharLe, hxy, heq] at h1

instance : IsTotal String strLeRel :=
  ⟨fun a b => listCharLe_total a.data b.data⟩

instance : IsTrans String strLeRel :=
  ⟨fun a b c => listCharLe_trans a.data b.data c.data⟩

/-- Boolean test that `p` is an initial segment of `s`. -/
def listBeginsWith : List Char → List Char → Bool
  | [], _ => true
  | _ :: _, [] => false
  | p :: ps, s :: ss => p == s && listBeginsWith ps ss

/-- Python `s.startswith(p)` on the underlying character lists. -/
def strStartsB (p s : String) : Bool := listBeginsWith p.data s.data

/-- Whether `s` ends with `p` (the shape `glob("*.py")` selects on
filenames), via the reversed character lists. -/
def strEndsB (p s : String) : Bool := listBeginsWith p.data.reverse s.data.reverse

def pyFileExt : String := ".py"

def initFileName : String := "__init__.py"

def underscoreStr : String := "_"

/-- The filename filter of `BootstrapLoader.discover_capabilities`
(`bootstrap/loader.py`): `f.name != "__init__.py" and not
f.name.startswith("_")`. -/
def isCapabilityFile (f : String) : Bool :=
  !(f == initFileName) && !(strStartsB underscoreStr f)

/-- Embedding of `BootstrapLoader.discover_capabilities`
(`bootstrap/loader.py`), as a function of the list of entry names in the
capabilities directory: keep the `*.py` entries, drop the package
initializer and underscore-named files, and sort by filename. -/
def discover_capabilities (allFiles : List String) : List String :=
  let capability_files :=
    (allFiles.filter (fun f => strEndsB pyFileExt f)).filter isCapabilityFile
  List.insertionSort strLeRel capability_files

def exampleCapabilityDir : List String :=
  ["00_a.py", "10_b.py", "_disabled_05_c.py", "__init__.py"]

/-- C5: `discover_capabilities` returns exactly the `.py` files that are
not the package initializer and do not begin with an underscore (as a
permutation of the filtered input, so with the same multiplicities),
sorted lexicographically by filename; on the directory
`["00_a.py", "10_b.py", "_disabled_05_c.py", "__init__.py"]` it returns
exactly `["00_a.py", "10_b.py"]` in that order. -/
theorem discover_capabilities_spec :
    (∀ files : List String,
      (discover_capabilities files).Perm
        (files.filter (fun f => isCapabilityFile f && strEndsB pyFileExt f)) ∧
      (discover_capabilities files).Sorted strLeRel) ∧
    discover_capabilities exampleCapabilityDir = ["00_a.py", "10_b.py"] := by
  refine ⟨fun files => ⟨?_, ?_⟩, by decide⟩
  · have h := List.perm_insertionSort strLeRel
      ((files.filter (fun f => strEndsB pyFileExt f)).filter isCapabilityFile)
    unfold discover_capabilities
    simpa [List.filter_filter] using h
  · exact List.sorted_insertionSort strLeRel _

/-- A Python value as returned by a capability's `run()`: `None`, a
bool, a string, a tuple, or any other object (carrying its `str()`
text). -/
inductive PyVal where
  | vNone : PyVal
  | vBool : Bool → PyVal
  | vStr : String → PyVal
  | vTuple : List PyVal → PyVal
  | vOther : String → PyVal

def singleQuote : String := "'"

mutual
/-- Python `repr` of a value (string quoting modelled without escapes;
`vOther` carries its own text). -/
def pyRepr : PyVal → String
  | .vNone => "None"
  | .vBool true => "True"
  | .vBool false => "False"
  | .vStr s => singleQuote ++ s ++ singleQuote
  | .vTuple [] => "()"
  | .vTuple [x] => "(" ++ pyRepr x ++ ",)"
  | .vTuple (x :: y :: rest) => "(" ++ pyRepr x ++ pyReprRest (y :: rest) ++ ")"
  | .vOther r => r

/-- Comma-separated `repr`s of the remaining tuple elements. -/
def pyReprRest : List PyVal → String
  | [] => ""
  | x :: rest => ", " ++ pyRepr x ++ pyReprRest rest
end

/-- Python `str` of a value (`f"{result}"`): a string yields its own
text, everything else falls back to `repr`-like text. -/
def pyStrTop : PyVal → String
  | .vStr s => s
  | v => pyRepr v

/-- Outcome of calling a capability's `run()`: a returned value, or a
raised exception carrying `str(e)`. -/
inductive RunOutcome where
  | ok : PyVal → RunOutcome
  | exn : String → RunOutcome

/-- A loaded capability module as `execute_capability` sees it: whether
the `CAPABILITY_NAME` and `CAPABILITY_DESCRIPTION` attributes exist, and
the `run` member (`none` = missing). -/
structure CapabilityModule where
  hasName : Bool
  hasDescription : Bool
  run : Option RunOutcome

def missingNameMsg : String := "Missing CAPABILITY_NAME attribute"

def missingDescMsg : String := "Missing CAPABILITY_DESCRIPTION attribute"

def missingRunMsg : String := "Missing run() function"

def successMsg : String := "Success"

def invalidMsgHead : String := "Invalid return value: "

/-- The message of `f"Invalid return value: {result}"`. -/
def invalidReturnMsg (v : PyVal) : String := invalidMsgHead ++ pyStrTop v

def exceptionMsgHead : String := "Exception: "

/-- The message of `f"Exception: {str(e)}"`. -/
def exceptionMsg (e : String) : String := exceptionMsgHead ++ e

/-- The Python pair `(b, s)` as a two-element tuple value. -/
def pairT (b : Bool) (s : String) : PyVal := .vTuple [.vBool b, .vStr s]

/-- Embedding of `BootstrapLoader.execute_capability`
(`bootstrap/loader.py`): check the three required members, call `run`,
catch any exception, and normalize the returned value. -/
def execute_capability (m : CapabilityModule) : PyVal :=
  if m.hasName = false then pairT false missingNameMsg
  else if m.hasDescription = false then pairT false missingDescMsg
  else
    match m.run with
    | none => pairT false missingRunMsg
    | some (.exn e) => pairT false (exceptionMsg e)
    | some (.ok result) =>
      match result with
      | .vNone => pairT true successMsg
      | .vBool true => pairT true successMsg
      | .vStr s => pairT true s
      | .vTuple items =>
        if items.length = 2 then .vTuple items
        else pairT false (invalidReturnMsg (.vTuple items))
      | v => pairT false (invalidReturnMsg v)

/-- Values handled by the first three normalization branches or returned
unchanged (two-element tuples). -/
def isNormalShape : PyVal → Bool
  | .vNone => true
  | .vBool b => b
  | .vStr _ => true
  | .vTuple items => items.length == 2
  | .vOther _ => false

/-- A module whose `run()` returns the Python value `False`. -/
def capModuleRetFalse : CapabilityModule :=
  ⟨true, true, some (.ok (.vBool false))⟩

def claimInvalidMsg : String := "Invalid return value"

lemma listBeginsWith_append (p t : List Char) :
    listBeginsWith p (p ++ t) = true := by
  induction p with
  | nil => rfl
  | cons x xs ih => simp [listBeginsWith, ih]

lemma strStartsB_append (p t : String) : strStartsB p (p ++ t) = true := by
  unfold strStartsB
  rw [String.data_append]
  exact listBeginsWith_append p.data t.data

/-- Second component of a two-element tuple whose second slot is a
string, used to compare result messages. -/
def tupleSndStr : PyVal → Option String
  | .vTuple [_, .vStr s] => some s
  | _ => none

lemma invalid_msg_starts (v : PyVal) :
    strStartsB claimInvalidMsg (invalidReturnMsg v) = true := by
  unfold strStartsB invalidReturnMsg
  rw [String.data_append]
  have hh : invalidMsgHead.data = claimInvalidMsg.data ++ [':', ' '] := by decide
  rw [hh, List.append_assoc]
  exact listBeginsWith_append _ _

/-- C4 counterexample: a module whose `run()` returns `False` (with the
name, description and run members all present) yields the message
`"Invalid return value: False"`, not the exact pair
`(False, "Invalid return value")` the claim states. -/
theorem execute_capability_invalid_msg_counterexample :
    execute_capability capModuleRetFalse =
      pairT false (invalidReturnMsg (.vBool false)) ∧
    ¬ (execute_capability capModuleRetFalse = pairT false claimInvalidMsg) := by
  refine ⟨rfl, fun h => ?_⟩
  have h2 := congrArg tupleSndStr h
  rw [show execute_capability capModuleRetFalse =
    pairT false (invalidReturnMsg (.vBool false)) from rfl] at h2
  simp only [pairT, tupleSndStr] at h2
  exact absurd h2 (by decide)

/-- C4 (amended): with the three required members present,
`execute_capability` normalizes `run()`'s result: `None` or `True` gives
`(True, "Success")`; a string `s` gives `(True, s)`; a two-element tuple
is returned unchanged; any other value gives `False` paired with
`"Invalid return value: "` followed by the value's text, a message that
begins with (but is not equal to) `"Invalid return value"`; an exception
is caught and converted to `(False, "Exception: " + str(e))`. -/
theorem execute_capability_normalizes (m : CapabilityModule)
    (hn : m.hasName = true) (hd : m.hasDescription = true) :
    (m.run = some (.ok .vNone) → execute_capability m = pairT true successMsg) ∧
    (m.run = some (.ok (.vBool true)) →
      execute_capability m = pairT true successMsg) ∧
    (∀ s, m.run = some (.ok (.vStr s)) → execute_capability m = pairT true s) ∧
    (∀ x y, m.run = some (.ok (.vTuple [x, y])) →
      execute_capability m = .vTuple [x, y]) ∧
    (∀ v, m.run = some (.ok v) → isNormalShape v = false →
      execute_capability m = pairT false (invalidReturnMsg v) ∧
      strStartsB claimInvalidMsg (invalidReturnMsg v) = true) ∧
    (∀ e, m.run = some (.exn e) →
      execute_capability m = pairT false (exceptionMsg e)) := by
  have hexec : ∀ out, m.run = some out →
      execute_capability m =
        (match out with
        | .exn e => pairT false (exceptionMsg e)
        | .ok result =>
          match result with
          | .vNone => pairT true successMsg
          | .vBool true => pairT true successMsg
          | .vStr s => pairT true s
          | .vTuple items =>
            if items.length = 2 then .vTuple items
            else pairT false (invalidReturnMsg (.vTuple items))
          | v => pairT false (invalidReturnMsg v)) := by
    intro out hout
    unfold execute_capability
    rw [hn, hd, hout]
    cases out with
    | exn e => rfl
    | ok result => rfl
  refine ⟨fun h => hexec _ h, fun h => hexec _ h, fun s h => hexec _ h,
    fun x y h => by rw [hexec _ h]; rfl, fun v h hshape => ⟨?_, invalid_msg_starts v⟩,
    fun e h => hexec _ h⟩
  rw [hexec _ h]
  cases v with
  | vNone => simp [isNormalShape] at hshape
  | vBool b =>
    cases b with
    | true => simp [isNormalShape] at hshape
    | false => rfl
  | vStr s => simp [isNormalShape] at hshape
  | vTuple items =>
    have hlen : ¬ items.length = 2 := by simpa [isNormalShape] using hshape
    simp only [if_neg hlen]
  | vOther r => rfl

/-- Witness for C4: concrete modules whose `run()` returns `None` and
raises an exception, respectively. -/
theorem execute_capability_normalizes_witness :
    execute_capability ⟨true, true, some (.ok .vNone)⟩ = pairT true successMsg ∧
    execute_capability ⟨true, true, some (.exn ("boom"))⟩ =
      pairT false (exceptionMsg ("boom")) :=
  ⟨(execute_capability_normalizes _ rfl rfl).1 rfl,
   (execute_capability_normalizes _ rfl rfl).2.2.2.2.2 ("boom") rfl⟩

/-- Python `s.lower()` on a character list. -/
def toLowerList (s : List Char) : List Char := s.map Char.toLower

/-- Python substring containment `pat in s`: `pat` begins at some
position of `s`. -/
def containsList (pat : List Char) : List Char → Bool
  | [] => listBeginsWith pat []
  | c :: cs => listBeginsWith pat (c :: cs) || containsList pat cs

/-- The word looked for by the telecentric name heuristic. -/
def teleWord : List Char := ['t', 'e', 'l', 'e', 'c', 'e', 'n', 't', 'r', 'i', 'c']

/-- The optical fields of `ZemaxParser` lens data that the telecentric
detection step of `_calculate_derived_parameters`
(`bootstrap/utils/zemax_parser.py`) reads, at the point the step runs.
`is_telecentric` is the incoming flag (initialized to `False` by the
parser and not written before this step). -/
structure ZemaxOptical where
  entrance_pupil_position_mm : ℚ
  exit_pupil_position_mm : ℚ
  field_of_view_deg : ℚ
  magnification : ℚ
  model : List Char
  notes : List Char
  is_telecentric : Bool

/-- Embedding of the telecentric-detection step of
`ZemaxParser._calculate_derived_parameters`: entrance or exit pupil
beyond 1e6 mm means "pupil at infinity"; otherwise a name hint
(`"telecentric"` in the lowercased model or notes) or the narrow-FOV
near-1x heuristic (`fov > 0 and fov < 8.0` with
`0.4 <= magnification <= 1.6`) sets the flag; otherwise the incoming
flag is kept. Returns the resulting `is_telecentric` value. -/
def telecentric_detect (o : ZemaxOptical) : Bool :=
  if o.entrance_pupil_position_mm > 1000000 then true
  else if o.exit_pupil_position_mm > 1000000 then true
  else if (containsList teleWord (toLowerList o.model) ||
          containsList teleWord (toLowerList o.notes)) ||
        (decide (0 < o.field_of_view_deg) && decide (o.field_of_view_deg < 8) &&
          decide ((0.4:ℚ) ≤ o.magnification) && decide (o.magnification ≤ 1.6)) then
    true
  else o.is_telecentric

/-- A record with a 5° field of view, 1.0x magnification, finite pupils
and no name hint. -/
def exampleNarrowFov : ZemaxOptical := ⟨0, 0, 5, 1, [], [], false⟩

/-- A record with a 40° field of view and 1.0x magnification. -/
def exampleWideFov : ZemaxOptical := ⟨0, 0, 40, 1, [], [], false⟩

/-- C6: with the incoming flag `False` (the parser's initial value), the
derived-parameter step sets `is_telecentric` exactly when a pupil
position exceeds 1e6, or the lowercased model/notes text contains
"telecentric", or the field of view is strictly between 0° and 8° while
the magnification lies in [0.4, 1.6]; in particular `fov = 5, mag = 1`
with no name hint is flagged and `fov = 40, mag = 1` is not. -/
theorem telecentric_detect_spec :
    (∀ o : ZemaxOptical, o.is_telecentric = false →
      (telecentric_detect o = true ↔
        (o.entrance_pupil_position_mm > 1000000 ∨
         o.exit_pupil_position_mm > 1000000 ∨
         containsList teleWord (toLowerList o.model) = true ∨
         containsList teleWord (toLowerList o.notes) = true ∨
         (0 < o.field_of_view_deg ∧ o.field_of_view_deg < 8 ∧
          (0.4:ℚ) ≤ o.magnification ∧ o.magnification ≤ 1.6)))) ∧
    telecentric_detect exampleNarrowFov = true ∧
    telecentric_detect exampleWideFov = false := by
  have hmain : ∀ o : ZemaxOptical, o.is_telecentric = false →
      (telecentric_detect o = true ↔
        (o.entrance_pupil_position_mm > 1000000 ∨
         o.exit_pupil_position_mm > 1000000 ∨
         containsList teleWord (toLowerList o.model) = true ∨
         containsList teleWord (toLowerList o.notes) = true ∨
         (0 < o.field_of_view_deg ∧ o.field_of_view_deg < 8 ∧
          (0.4:ℚ) ≤ o.magnification ∧ o.magnification ≤ 1.6))) := ?_
  case _ =>
    refine ⟨hmain, ?_, ?_⟩
    · exact (hmain exampleNarrowFov rfl).mpr
        (Or.inr (Or.inr (Or.inr (Or.inr (by norm_num [exampleNarrowFov])))))
    · have h := hmain exampleWideFov rfl
      rcases Bool.eq_false_or_eq_true (telecentric_detect exampleWideFov) with hb | hb
      · exfalso
        rcases h.mp hb with hr | hr | hr | hr | hr
        · norm_num [exampleWideFov] at hr
        · norm_num [exampleWideFov] at hr
        · exact absurd hr (by decide)
        · exact absurd hr (by decide)
        · norm_num [exampleWideFov] at hr
      · exact hb
  intro o h
  unfold telecentric_detect
  split_ifs with h1 h2 h3
  · simp [h1]
  · simp [h1, h2]
  · simp only [Bool.or_eq_true, Bool.and_eq_true, decide_eq_true_eq] at h3
    simp only [true_iff]
    rcases h3 with (hm | hn) | hf
    · exact Or.inr (Or.inr (Or.inl hm))
    · exact Or.inr (Or.inr (Or.inr (Or.inl hn)))
    · exact Or.inr (Or.inr (Or.inr (Or.inr
        ⟨hf.1.1.1, hf.1.1.2, hf.1.2, hf.2⟩)))
  · rw [h]
    simp only [Bool.or_eq_true, Bool.and_eq_true, decide_eq_true_eq, not_or] at h3
    constructor
    · intro hf
      exact absurd hf (by simp)
    · rintro (hr | hr | hr | hr | hr)
      · exact absurd hr h1
      · exact absurd hr h2
      · exact absurd hr h3.1.1
      · exact absurd hr h3.1.2
      · exact (h3.2 (by
          rcases hr with ⟨a, b, c, d⟩
          exact ⟨⟨⟨a, b⟩, c⟩, d⟩)).elim

/-- Witness for C6: the iff applied to the concrete narrow-FOV record,
whose flag is set through the heuristic disjunct. -/
theorem telecentric_detect_spec_witness :
    telecentric_detect exampleNarrowFov = true :=
  (telecentric_detect_spec.1 exampleNarrowFov rfl).mpr
    (Or.inr (Or.inr (Or.inr (Or.inr (by norm_num [exampleNarrowFov])))))

/-- Embedding of `nits_to_omniverse_intensity`
(`bootstrap/utils/luminous.py`): non-positive nits give `(0, 0)`; a
caller-specified non-zero exposure fixes the exposure; otherwise the
exposure is auto-chosen by luminance band (`math.floor(math.log2 ...)`)
and the intensity is `nits / 2 ** exposure`. Returns
`(intensity, exposure)`. -/
noncomputable def nits_to_omniverse_intensity (nits target_exposure : ℝ) : ℝ × ℝ :=
  if nits ≤ 0 then (0, 0)
  else if target_exposure ≠ 0 then (nits / (2:ℝ) ^ target_exposure, target_exposure)
  else if nits ≤ 100 then (nits, 0)
  else if nits ≤ 10000 then
    (nits / (2:ℝ) ^ (⌊Real.logb 2 (nits / 10)⌋), ((⌊Real.logb 2 (nits / 10)⌋ : ℤ) : ℝ))
  else
    (nits / (2:ℝ) ^ (⌊Real.logb 2 (nits / 100)⌋), ((⌊Real.logb 2 (nits / 100)⌋ : ℤ) : ℝ))

lemma floor_logb_two_500 : ⌊Real.logb 2 (500 : ℝ)⌋ = 8 := by
  have h1 : ((2:ℕ):ℝ) = (2:ℝ) := by norm_num
  have h2 : ((500:ℕ):ℝ) = (500:ℝ) := by norm_num
  rw [← h1, ← h2, Real.floor_logb_natCast (by norm_num), Int.log_natCast]
  have h3 : Nat.log 2 500 = 8 :=
    Nat.log_eq_of_pow_le_of_lt_pow (by norm_num) (by norm_num)
  rw [h3]
  norm_num

/-- C7: with no caller-specified exposure, positive nits at most 100
give `(nits, 0)`; nits in (100, 10000] give exposure
`floor(log2(nits/10))` and intensity `nits / 2^exposure`; nits above
10000 give exposure `floor(log2(nits/100))` and intensity
`nits / 2^exposure`; in particular 50 nits give `(50, 0)` and 5000 nits
give exposure 8 and intensity `5000 / 256`. -/
theorem nits_to_omniverse_intensity_spec :
    (∀ nits : ℝ, 0 < nits → nits ≤ 100 →
      nits_to_omniverse_intensity nits 0 = (nits, 0)) ∧
    (∀ nits : ℝ, 100 < nits → nits ≤ 10000 →
      nits_to_omniverse_intensity nits 0 =
        (nits / (2:ℝ) ^ (⌊Real.logb 2 (nits / 10)⌋),
         ((⌊Real.logb 2 (nits / 10)⌋ : ℤ) : ℝ))) ∧
    (∀ nits : ℝ, 10000 < nits →
      nits_to_omniverse_intensity nits 0 =
        (nits / (2:ℝ) ^ (⌊Real.logb 2 (nits / 100)⌋),
         ((⌊Real.logb 2 (nits / 100)⌋ : ℤ) : ℝ))) ∧
    nits_to_omniverse_intensity 50 0 = (50, 0) ∧
    nits_to_omniverse_intensity 5000 0 = (5000 / 256, 8) := by
  have hc1 : ∀ nits : ℝ, 0 < nits → nits ≤ 100 →
      nits_to_omniverse_intensity nits 0 = (nits, 0) := by
    intro nits h0 h100
    unfold nits_to_omniverse_intensity
    rw [if_neg (not_le.mpr h0), if_neg (by simp), if_pos h100]
  have hc2 : ∀ nits : ℝ, 100 < nits → nits ≤ 10000 →
      nits_to_omniverse_intensity nits 0 =
        (nits / (2:ℝ) ^ (⌊Real.logb 2 (nits / 10)⌋),
         ((⌊Real.logb 2 (nits / 10)⌋ : ℤ) : ℝ)) := by
    intro nits h100 h10k
    unfold nits_to_omniverse_intensity
    rw [if_neg (not_le.mpr (by linarith)), if_neg (by simp),
      if_neg (not_le.mpr h100), if_pos h10k]
  refine ⟨hc1, hc2, ?_, hc1 50 (by norm_num) (by norm_num), ?_⟩
  · intro nits h10k
    unfold nits_to_omniverse_intensity
    rw [if_neg (not_le.mpr (by linarith)), if_neg (by simp),
      if_neg (not_le.mpr (by linarith)), if_neg (not_le.mpr h10k)]
  · have h := hc2 5000 (by norm_num) (by norm_num)
    have h500 : (5000:ℝ) / 10 = 500 := by norm_num
    rw [h, h500, floor_logb_two_500]
    norm_num

/-- Witness for C7: 70 positive nits in the low band give `(70, 0)`. -/
theorem nits_to_omniverse_intensity_spec_witness :
    nits_to_omniverse_intensity 70 0 = (70, 0) :=
  nits_to_omniverse_intensity_spec.1 70 (by norm_num) (by norm_num)

/-- USD camera projection token. -/
inductive Projection where
  | perspective : Projection
  | orthographic : Projection
deriving DecidableEq

/-- The camera state touched by the projection block of
`LensSync._apply_lens_profile` (`_build/bootstrap/utils/lens_sync.py`). -/
structure CameraState where
  projection : Projection
  horizontalAperture : ℚ
deriving DecidableEq

/-- The optical fields that the projection block reads:
`optical.get("is_telecentric", False)` and
`optical.get("magnification", 1.0)` (`none` = key absent, defaulted to
1.0). -/
structure LensOptical where
  is_telecentric : Bool
  magnification : Option ℚ
deriving DecidableEq

/-- Embedding of the telecentric-projection block of
`LensSync._apply_lens_profile`: a telecentric record sets orthographic
projection and, when the (defaulted) magnification is positive, sets the
horizontal aperture to `6.4 / magnification`; otherwise the projection
is set to perspective. -/
def apply_lens_projection (o : LensOptical) (cam : CameraState) : CameraState :=
  if o.is_telecentric then
    let cam1 : CameraState := { cam with projection := .orthographic }
    let magnification := o.magnification.getD 1
    if magnification > 0 then
      { cam1 with horizontalAperture := 6.4 / magnification }
    else cam1
  else { cam with projection := .perspective }

/-- C8: applying a lens record sets the camera projection to
orthographic exactly when the record's telecentric flag is set (else
perspective), and a telecentric record with positive magnification sets
the horizontal aperture to exactly `6.4 / magnification`. -/
theorem apply_lens_projection_spec :
    (∀ (o : LensOptical) (cam : CameraState),
      (apply_lens_projection o cam).projection =
        (if o.is_telecentric then Projection.orthographic
         else Projection.perspective)) ∧
    (∀ (o : LensOptical) (cam : CameraState) (m : ℚ),
      o.is_telecentric = true → o.magnification = some m → 0 < m →
      (apply_lens_projection o cam).horizontalAperture = 6.4 / m) := by
  constructor
  · intro o cam
    unfold apply_lens_projection
    cases ht : o.is_telecentric with
    | false => simp
    | true =>
      simp only [if_pos rfl, if_pos]
      by_cases hm : o.magnification.getD 1 > 0
      · rw [if_pos hm]
      · rw [if_neg hm]
  · intro o cam m ht hm hpos
    unfold apply_lens_projection
    rw [ht, if_pos rfl, hm]
    simp only [Option.getD_some]
    rw [if_pos hpos]

/-- Witness for C8: a telecentric record with magnification 2 yields an
aperture of 6.4 / 2. -/
theorem apply_lens_projection_spec_witness :
    (apply_lens_projection ⟨true, some 2⟩
        ⟨Projection.perspective, 0⟩).horizontalAperture = 6.4 / 2 :=
  apply_lens_projection_spec.2 ⟨true, some 2⟩ ⟨Projection.perspective, 0⟩ 2
    rfl rfl (by norm_num)

/-- An entry of the lens-library index (`index["lenses"][i]`), as built
by `LensLibrary.add_lens` (`bootstrap/utils/lens_library.py`); the
optional Zemax copy is not used here (`zemax_path=None`). -/
structure LensIndexEntry where
  id : String
  manufacturer : String
  model : String
  lens_type : String
  focal_length_mm : ℚ
  working_distance_mm : ℚ
  f_number : ℚ
  is_telecentric : Bool
  data_path : String
  added : String
deriving DecidableEq

/-- The parts of a lens-data dictionary that `add_lens` reads:
`optical.get(...)` values used for the index entry. -/
structure LensData where
  focal_length_mm : ℚ
  working_distance_mm : ℚ
  f_number : ℚ
  is_telecentric : Bool
deriving DecidableEq

/-- The content written to the per-lens JSON file: the lens data with
`metadata["manufacturer"]` and `metadata["model"]` filled in. -/
structure StoredLensData where
  core : LensData
  manufacturer : String
  model : String
deriving DecidableEq

/-- The index document (`version`/`updated` headers and the `lenses`
list). -/
structure LibIndex where
  lenses : List LensIndexEntry
  updated : String
deriving DecidableEq

/-- The on-disk state of the lens library: the index document and the
per-lens JSON files in the `Library/` folder (filename, content). -/
structure LibState where
  index : LibIndex
  dataFiles : List (String × StoredLensData)
deriving DecidableEq

/-- Embedding of `LensLibrary.find_lens_by_id`: first index entry whose
`id` matches. -/
def find_lens_by_id (idx : LibIndex) (lens_id : String) : Option LensIndexEntry :=
  idx.lenses.find? (fun l => l.id == lens_id)

/-- Characters kept by `_sanitize_name`'s regex `[^\w\-_.]` (ASCII
word characters, dash, underscore, dot). -/
def isWordChar (c : Char) : Bool := c.isAlphanum || c = '_' || c = '-' || c = '.'

/-- First step of `_sanitize_name`: replace disallowed characters by an
underscore. -/
def sanitizeReplace (s : List Char) : List Char :=
  s.map (fun c => if isWordChar c then c else '_')

/-- Second step of `_sanitize_name`: collapse runs of underscores
(`re.sub(r'_+', '_', ...)`). -/
def collapseUnd : List Char → List Char
  | [] => []
  | [c] => [c]
  | c :: d :: rest =>
    if c = '_' ∧ d = '_' then collapseUnd (d :: rest)
    else c :: collapseUnd (d :: rest)

/-- Third step of `_sanitize_name`: strip leading and trailing
underscores (`.strip('_')`). -/
def stripUnd (s : List Char) : List Char :=
  ((s.dropWhile (fun c => c = '_')).reverse.dropWhile (fun c => c = '_')).reverse

def unknownStr : String := "unknown"

/-- Embedding of `LensLibrary._sanitize_name` (ASCII): replace, collapse,
strip, defaulting to `"unknown"` when empty. -/
def sanitize_name (name : String) : String :=
  let safe := stripUnd (collapseUnd (sanitizeReplace name.data))
  if safe.isEmpty then unknownStr else ⟨safe⟩

def jsonExt : String := ".json"

/-- Embedding of `LensLibrary.add_lens` with `zemax_path=None`, as a
transition on the library state (`now` is `datetime.now().isoformat()`).
The duplicate check runs first; afterwards the per-lens JSON file is
written (overwriting any file of the same name), the existing index
entry is dropped when overwriting, the new entry is appended and the
index is saved with a fresh `updated` stamp. Returns the success flag
and the new state. -/
def add_lens (st : LibState) (lens_id manufacturer model : String)
    (lens_data : LensData) (lens_type : String) (overwrite : Bool)
    (now : String) : Bool × LibState :=
  let existing := find_lens_by_id st.index lens_id
  if existing.isSome && !overwrite then (false, st)
  else
    let safe_lens_id := sanitize_name lens_id
    let data_name := safe_lens_id ++ jsonExt
    let stored : StoredLensData := ⟨lens_data, manufacturer, model⟩
    let dataFiles1 :=
      (st.dataFiles.filter (fun p => !(p.1 == data_name))) ++ [(data_name, stored)]
    let index_entry : LensIndexEntry :=
      ⟨lens_id, manufacturer, model, lens_type, lens_data.focal_length_mm,
       lens_data.working_distance_mm, lens_data.f_number,
       lens_data.is_telecentric, data_name, now⟩
    let lenses1 :=
      if existing.isSome then st.index.lenses.filter (fun l => !(l.id == lens_id))
      else st.index.lenses
    (true, ⟨⟨lenses1 ++ [index_entry], now⟩, dataFiles1⟩)

/-- C9: for a lens id already present in the index, `add_lens` with
`overwrite=False` returns failure and leaves the whole library state —
the index document, the existing entry, and the stored per-lens data
files — unchanged, because the duplicate check precedes every write. -/
theorem add_lens_duplicate_noop (st : LibState)
    (lens_id manufacturer model : String) (lens_data : LensData)
    (lens_type : String) (now : String) (e : LensIndexEntry)
    (he : find_lens_by_id st.index lens_id = some e) :
    add_lens st lens_id manufacturer model lens_data lens_type false now =
      (false, st) ∧
    (add_lens st lens_id manufacturer model lens_data lens_type false
        now).2.index = st.index ∧
    find_lens_by_id (add_lens st lens_id manufacturer model lens_data
        lens_type false now).2.index lens_id = some e ∧
    (add_lens st lens_id manufacturer model lens_data lens_type false
        now).2.dataFiles = st.dataFiles := by
  have hne : add_lens st lens_id manufacturer model lens_data lens_type
      false now = (false, st) := by
    unfold add_lens
    rw [he]
    rfl
  refine ⟨hne, by rw [hne], by rw [hne]; exact he, by rw [hne]⟩

/-- Witness for C9: a concrete one-entry library refuses a duplicate id
and is returned unchanged. -/
theorem add_lens_duplicate_noop_witness :
    add_lens
        ⟨⟨[⟨"x", "m", "mod", "standard", 50, 100, 2, false, "x.json", "t0"⟩],
          "t0"⟩, [("x.json", ⟨⟨50, 100, 2, false⟩, "m", "mod"⟩)]⟩
        "x" "m2" "mod2" ⟨1, 2, 3, true⟩ "macro" false "t1" =
      (false,
        ⟨⟨[⟨"x", "m", "mod", "standard", 50, 100, 2, false, "x.json", "t0"⟩],
          "t0"⟩, [("x.json", ⟨⟨50, 100, 2, false⟩, "m", "mod"⟩)]⟩) :=
  (add_lens_duplicate_noop
    ⟨⟨[⟨"x", "m", "mod", "standard", 50, 100, 2, false, "x.json", "t0"⟩],
      "t0"⟩, [("x.json", ⟨⟨50, 100, 2, false⟩, "m", "mod"⟩)]⟩
    "x" "m2" "mod2" ⟨1, 2, 3, true⟩ "macro" "t1"
    ⟨"x", "m", "mod", "standard", 50, 100, 2, false, "x.json", "t0"⟩
    (by decide)).1
